import Mathlib

set_option linter.unusedVariables false

/-
Verification of the Brush edit operations of a CSG kernel (Model/Brush.cpp).

The file shallowly embeds the control flow of Brush.cpp over an abstract
interface to the half-edge polyhedron kernel (class BrushGeometry /
Polyhedron and the vecmath primitives), whose implementation is not part of
the verified sources; only the operations that Brush.cpp calls are modelled,
as fields of explicit kernel structures.  Coordinates are exact rationals;
the floating point tolerance comparisons of the source become exact
comparisons of the model.
-/

namespace TB

/-- A 3D vector with exact integer coordinates, standing in for vm::vec3
(double coordinates in the source); the tolerance comparisons of the source
become exact comparisons in this model. -/
structure Vec3 where
  x : ℤ
  y : ℤ
  z : ℤ
  deriving DecidableEq, Repr

instance : Add Vec3 := ⟨fun a b => ⟨a.x + b.x, a.y + b.y, a.z + b.z⟩⟩

instance : Neg Vec3 := ⟨fun a => ⟨-a.x, -a.y, -a.z⟩⟩

instance : Zero Vec3 := ⟨⟨0, 0, 0⟩⟩

/-- Dot product of two vectors. -/
def Vec3.dot (a b : Vec3) : ℤ := a.x * b.x + a.y * b.y + a.z * b.z

/-- Scalar multiple of a vector. -/
def Vec3.smul (c : ℤ) (a : Vec3) : Vec3 := ⟨c * a.x, c * a.y, c * a.z⟩

/-- An axis-aligned bounding box, standing in for vm::bbox3. -/
structure BBox where
  min : Vec3
  max : Vec3
  deriving DecidableEq, Repr

/-- Componentwise point containment of vm::bbox3::contains(point). -/
def BBox.containsPt (b : BBox) (p : Vec3) : Bool :=
  decide (b.min.x ≤ p.x ∧ p.x ≤ b.max.x ∧
          b.min.y ≤ p.y ∧ p.y ≤ b.max.y ∧
          b.min.z ≤ p.z ∧ p.z ≤ b.max.z)

/-- Componentwise box containment of vm::bbox3::contains(bbox). -/
def BBox.containsBox (b c : BBox) : Bool :=
  decide (b.min.x ≤ c.min.x ∧ c.max.x ≤ b.max.x ∧
          b.min.y ≤ c.min.y ∧ c.max.y ≤ b.max.y ∧
          b.min.z ≤ c.min.z ∧ c.max.z ≤ b.max.z)

/-- The box grown by f in every direction, vm::bbox3::expand. -/
def BBox.expand (b : BBox) (f : ℤ) : BBox :=
  ⟨b.min + ⟨-f, -f, -f⟩, b.max + ⟨f, f, f⟩⟩

/-- Result of vm::plane_status: the side of a plane a point lies on, with the
outward face normal pointing to the above side. -/
inductive PlaneStatus where
  | above
  | below
  | inside
  deriving DecidableEq, Repr

/-- Modelled from the spec: the interface of the polyhedron kernel (class
Polyhedron, instantiated as BrushGeometry), whose implementation is not among
the sources under src/; Brush.cpp only calls it.  `G` is the type of
polyhedron instances, `F` the type of geometry faces.  The fields are the
kernel operations Brush.cpp uses: default construction, incremental point
insertion (addPoint), the vertex list, the bounding box, exact
vertex/edge/face lookup, the degeneracy class predicates (point / edge /
polygon / polyhedron), the face list, the per-face plane side test
(Polyhedron::Face::pointStatus), the back-side ray intersection query
(Polyhedron::Face::intersectWithRay with vm::side::back, returning NaN on a
miss, modelled as a Bool hit flag), a general ray/polygon intersection query
(used only to state spec sentences), the tolerant nearest-vertex lookup
(findClosestVertex), and point containment. -/
structure GeomKernel (G F : Type) where
  emptyG : G
  addPoint : G → Vec3 → G
  vertexPositions : G → List Vec3
  bounds : G → BBox
  hasVertex : G → Vec3 → Bool
  hasEdge : G → Vec3 → Vec3 → Bool
  hasFace : G → List Vec3 → Bool
  polyhedron : G → Bool
  point : G → Bool
  edge : G → Bool
  polygon : G → Bool
  faces : G → List F
  pointStatus : F → Vec3 → PlaneStatus
  hitBack : F → Vec3 → Vec3 → Bool
  hitAny : F → Vec3 → Vec3 → Bool
  findClosestVertex : G → Vec3 → Option Vec3
  containsPoint : G → Vec3 → Bool

/-- Building a geometry by adding a list of points in order, as the loops of
Brush.cpp do on a default-constructed BrushGeometry. -/
def GeomKernel.build {G F : Type} (K : GeomKernel G F) (ps : List Vec3) : G :=
  ps.foldl K.addPoint K.emptyG

/-- The positions of the brush vertices that are not moving: the loop of
doCanMoveVertices adds exactly the brush vertices whose position is not in
the vertex set to `remaining`, in brush vertex order. -/
def remainingPositions (brushVerts vertexPositions : List Vec3) : List Vec3 :=
  brushVerts.filter (fun p => decide (¬ p ∈ vertexPositions))

/-- The positions of the brush vertices that are moving, in brush vertex
order. -/
def movingPositions (brushVerts vertexPositions : List Vec3) : List Vec3 :=
  brushVerts.filter (fun p => decide (p ∈ vertexPositions))

/-- The point sequence from which doCanMoveVertices builds `result`: every
brush vertex in order, the moving ones translated by delta. -/
def resultPositions (brushVerts vertexPositions : List Vec3) (delta : Vec3) :
    List Vec3 :=
  brushVerts.map (fun p => if p ∈ vertexPositions then p + delta else p)

/-- The `remaining` geometry of doCanMoveVertices. -/
def remainingGeom {G F : Type} (K : GeomKernel G F)
    (brushVerts vertexPositions : List Vec3) : G :=
  K.build (remainingPositions brushVerts vertexPositions)

/-- The `moving` geometry of doCanMoveVertices. -/
def movingGeom {G F : Type} (K : GeomKernel G F)
    (brushVerts vertexPositions : List Vec3) : G :=
  K.build (movingPositions brushVerts vertexPositions)

/-- The `result` geometry of doCanMoveVertices. -/
def resultGeom {G F : Type} (K : GeomKernel G F)
    (brushVerts vertexPositions : List Vec3) (delta : Vec3) : G :=
  K.build (resultPositions brushVerts vertexPositions delta)

/-- The invert condition of the decision table of doCanMoveVertices
(Brush.cpp line 760): remaining is a point or an edge, or remaining is a
polygon while moving is a polyhedron. -/
def invertCase {G F : Type} (K : GeomKernel G F) (remaining moving : G) : Bool :=
  K.point remaining || K.edge remaining ||
    (K.polygon remaining && K.polyhedron moving)

/-- The moving fragment used by the final sweep of doCanMoveVertices, after
the invert step swapped the fragments if the invert condition held. -/
def checkMoving {G F : Type} (K : GeomKernel G F)
    (brushVerts vertexPositions : List Vec3) : G :=
  if invertCase K (remainingGeom K brushVerts vertexPositions)
      (movingGeom K brushVerts vertexPositions) then
    remainingGeom K brushVerts vertexPositions
  else
    movingGeom K brushVerts vertexPositions

/-- The remaining fragment used by the final sweep of doCanMoveVertices,
after the invert step. -/
def checkRemaining {G F : Type} (K : GeomKernel G F)
    (brushVerts vertexPositions : List Vec3) : G :=
  if invertCase K (remainingGeom K brushVerts vertexPositions)
      (movingGeom K brushVerts vertexPositions) then
    movingGeom K brushVerts vertexPositions
  else
    remainingGeom K brushVerts vertexPositions

/-- The delta used by the final sweep of doCanMoveVertices: negated by the
invert step. -/
def checkDelta {G F : Type} (K : GeomKernel G F)
    (brushVerts vertexPositions : List Vec3) (delta : Vec3) : Vec3 :=
  if invertCase K (remainingGeom K brushVerts vertexPositions)
      (movingGeom K brushVerts vertexPositions) then
    -delta
  else
    delta

/-- The final sweep of doCanMoveVertices (Brush.cpp lines 767 to 781): the
move is rejected when some moving vertex lies strictly below some remaining
face plane at its old position, strictly above it at its new position, and
the ray from the old toward the new position intersects the face polygon on
its back side. -/
def sweepRejected {G F : Type} (K : GeomKernel G F) (moving remaining : G)
    (delta : Vec3) : Bool :=
  (K.vertexPositions moving).any fun oldPos =>
    (K.faces remaining).any fun face =>
      decide (K.pointStatus face oldPos = PlaneStatus.below) &&
      decide (K.pointStatus face (oldPos + delta) = PlaneStatus.above) &&
      K.hitBack face oldPos (oldPos + delta)

/-- The result record of Brush::doCanMoveVertices: the decision and the
candidate result geometry. -/
structure CanMoveVerticesResult (G : Type) where
  success : Bool
  geometry : G

/-- Brush::doCanMoveVertices (Brush.cpp lines 704 to 784), translated branch
for branch: reject empty vertex sets and zero deltas; build `remaining`,
`moving` and `result` from the partitioned brush vertices; reject when the
result leaves the world bounds; accept a move of every brush vertex; when
vertex removal is disallowed, reject if a moving vertex is missing from the
result; reject when the result is not a polyhedron; accept the two remaining
ok cells of the decision table; otherwise invert if the invert condition
holds and run the sweep.  `brushVerts` is the vertex position list of the
geometry of the brush, so the vertexCount() of the brush is its length. -/
def doCanMoveVertices {G F : Type} (K : GeomKernel G F) (brushVerts : List Vec3)
    (worldBounds : BBox) (vertexPositions : List Vec3) (delta : Vec3)
    (allowVertexRemoval : Bool) : CanMoveVerticesResult G :=
  if vertexPositions = [] ∨ delta = 0 then ⟨false, K.emptyG⟩
  else if BBox.containsBox worldBounds
      (K.bounds (resultGeom K brushVerts vertexPositions delta)) = false then
    ⟨false, K.emptyG⟩
  else if (K.vertexPositions (movingGeom K brushVerts vertexPositions)).length
      = brushVerts.length then
    ⟨true, resultGeom K brushVerts vertexPositions delta⟩
  else if allowVertexRemoval = false ∧
      ((K.vertexPositions (movingGeom K brushVerts vertexPositions)).all
        fun mv => K.hasVertex (resultGeom K brushVerts vertexPositions delta)
          (mv + delta)) = false then
    ⟨false, K.emptyG⟩
  else if K.polyhedron (resultGeom K brushVerts vertexPositions delta) = false then
    ⟨false, K.emptyG⟩
  else if ((K.point (movingGeom K brushVerts vertexPositions) &&
        K.polygon (remainingGeom K brushVerts vertexPositions)) ||
      (K.edge (movingGeom K brushVerts vertexPositions) &&
        K.edge (remainingGeom K brushVerts vertexPositions))) = true then
    ⟨true, resultGeom K brushVerts vertexPositions delta⟩
  else if sweepRejected K (checkMoving K brushVerts vertexPositions)
      (checkRemaining K brushVerts vertexPositions)
      (checkDelta K brushVerts vertexPositions delta) then
    ⟨false, K.emptyG⟩
  else ⟨true, resultGeom K brushVerts vertexPositions delta⟩

/-- Brush::canMoveVertices: the feasibility query with vertex removal
allowed. -/
def canMoveVertices {G F : Type} (K : GeomKernel G F) (brushVerts : List Vec3)
    (worldBounds : BBox) (vertices : List Vec3) (delta : Vec3) : Bool :=
  (doCanMoveVertices K brushVerts worldBounds vertices delta true).success

/-- The vertex positions collected from a list of edges, as
vm::segment3::get_vertices does in Brush::canMoveEdges. -/
def segmentVertices (edgePositions : List (Vec3 × Vec3)) : List Vec3 :=
  edgePositions.flatMap fun e => [e.1, e.2]

/-- The vertex positions collected from a list of face polygons, as
vm::polygon3::get_vertices does in Brush::canMoveFaces. -/
def polygonVertices (facePositions : List (List Vec3)) : List Vec3 :=
  facePositions.flatMap id

/-- Brush::canMoveEdges (Brush.cpp lines 578 to 599): run the vertex move
feasibility over the vertices of the edges with vertex removal disallowed,
then require every edge translated by delta to exist in the candidate result
geometry. -/
def canMoveEdges {G F : Type} (K : GeomKernel G F) (brushVerts : List Vec3)
    (worldBounds : BBox) (edgePositions : List (Vec3 × Vec3)) (delta : Vec3) :
    Bool :=
  (doCanMoveVertices K brushVerts worldBounds
      (segmentVertices edgePositions) delta false).success &&
    edgePositions.all fun e =>
      K.hasEdge (doCanMoveVertices K brushVerts worldBounds
          (segmentVertices edgePositions) delta false).geometry
        (e.1 + delta) (e.2 + delta)

/-- Brush::canMoveFaces (Brush.cpp lines 623 to 642): run the vertex move
feasibility over the vertices of the faces with vertex removal disallowed,
then require every face translated by delta to exist in the candidate result
geometry. -/
def canMoveFaces {G F : Type} (K : GeomKernel G F) (brushVerts : List Vec3)
    (worldBounds : BBox) (facePositions : List (List Vec3)) (delta : Vec3) :
    Bool :=
  (doCanMoveVertices K brushVerts worldBounds
      (polygonVertices facePositions) delta false).success &&
    facePositions.all fun f =>
      K.hasFace (doCanMoveVertices K brushVerts worldBounds
          (polygonVertices facePositions) delta false).geometry
        (f.map (fun v => v + delta))

/-- Brush::canRemoveVertices (Brush.cpp lines 505 to 520): add every brush
vertex not in the removal set to a fresh geometry and return its
polyhedron() predicate. -/
def canRemoveVertices {G F : Type} (K : GeomKernel G F)
    (brushVerts vertexPositions : List Vec3) : Bool :=
  K.polyhedron
    (K.build (brushVerts.filter fun p => decide (¬ p ∈ vertexPositions)))

/-- The grid snapped image of a point: snapToF * round(origin / snapToF),
componentwise, as in Brush::canSnapVertices; the model restricts the grid
size to an integer and performs the division and the rounding in exact
rational arithmetic. -/
def snapPoint (snapToF : ℤ) (p : Vec3) : Vec3 :=
  ⟨snapToF * round ((p.x : ℚ) / (snapToF : ℚ)),
   snapToF * round ((p.y : ℚ) / (snapToF : ℚ)),
   snapToF * round ((p.z : ℚ) / (snapToF : ℚ))⟩

/-- Brush::canSnapVertices (Brush.cpp lines 541 to 551): add the snapped
image of every brush vertex to a fresh geometry and return its polyhedron()
predicate. -/
def canSnapVertices {G F : Type} (K : GeomKernel G F) (brushVerts : List Vec3)
    (snapToF : ℤ) : Bool :=
  K.polyhedron (K.build (brushVerts.map (snapPoint snapToF)))

/-- Brush::canAddVertex (Brush.cpp lines 485 to 488): the position must lie
in the world bounds and outside the current geometry. -/
def canAddVertex {G F : Type} (K : GeomKernel G F) (geom : G)
    (worldBounds : BBox) (position : Vec3) : Bool :=
  BBox.containsPt worldBounds position && !(K.containsPoint geom position)

/-- An application-level brush face (class BrushFace, whose implementation is
not among the sources under src/): its boundary plane, given by an outward
normal and a distance, and an opaque texture attribute word standing for the
texture and UV state. -/
structure BrushFaceT where
  normal : Vec3
  dist : ℤ
  attrs : ℤ
  deriving DecidableEq, Repr

/-- Modelled from the spec: BrushFace::transform with a translation matrix
(the payload contract transform of the face plane).  Translating a plane by
a vector v keeps the normal and moves the distance by the dot product of the
normal with v; the texture attributes of this model are unchanged by a
translation. -/
def translateFace (f : BrushFaceT) (v : Vec3) : BrushFaceT :=
  { f with dist := f.dist + Vec3.dot f.normal v }

/-- Modelled from the spec: the geometry construction interface used by
Brush::buildGeometry, whose implementation (Polyhedron clipping, healing and
the QBSP face sort of BrushFace::sortFaces) is not among the sources under
src/.  initG builds the maximal bounding volume; clip cuts by the plane of
one face, attaching the face as payload to the created geometry faces, and
reports whether the result became empty; payloads lists the payload of every
geometry face, null when an input plane never became a face. -/
structure BuildKernel (G FaceT : Type) where
  initG : BBox → G
  sortFaces : List FaceT → List FaceT
  clip : G → FaceT → G × Bool
  correctVertexPositions : G → G
  healEdges : G → G × Bool
  payloads : G → List (Option FaceT)

/-- The constructor body of Brush::AddFacesToGeometry (Brush.cpp lines 99 to
118): sort the faces, clip by each in turn while the geometry is not empty,
then correct vertex positions and heal edges.  Returns the geometry, the
brushEmpty flag and the brushValid flag. -/
def addFacesToGeometry {G FaceT : Type} (B : BuildKernel G FaceT) (g0 : G)
    (facesToAdd : List FaceT) : G × Bool × Bool :=
  let clipped := (B.sortFaces facesToAdd).foldl
    (fun gs f => if gs.2 then gs else B.clip gs.1 f) (g0, false)
  if clipped.2 then (clipped.1, true, true)
  else
    let healed := B.healEdges (B.correctVertexPositions clipped.1)
    (healed.1, false, healed.2)

/-- Brush::fullySpecified (Brush.cpp lines 277 to 286): every geometry face
must carry a non-null payload. -/
def fullySpecified {G FaceT : Type} (B : BuildKernel G FaceT) (g : G) : Bool :=
  (B.payloads g).all Option.isSome

/-- Brush::updateFacesFromGeometry (Brush.cpp lines 1030 to 1041): the new
face list is the list of non-null payloads of the geometry faces, in
geometry face order. -/
def updateFacesFromGeometry {G FaceT : Type} (B : BuildKernel G FaceT) (g : G) :
    List FaceT :=
  (B.payloads g).filterMap id

/-- The three GeometryException reasons thrown by Brush::buildGeometry. -/
inductive BuildError where
  | brushEmpty
  | brushInvalid
  | brushNotFullySpecified
  deriving DecidableEq, Repr

/-- The flags produced while building a geometry from a face list for the
given world bounds. -/
def buildFlags {G FaceT : Type} (B : BuildKernel G FaceT) (worldBounds : BBox)
    (faces : List FaceT) : G × Bool × Bool :=
  addFacesToGeometry B (B.initG (worldBounds.expand 1)) faces

/-- Brush::buildGeometry (Brush.cpp lines 1048 to 1063): build the maximal
volume for the expanded world bounds, add the faces, update the face list
from the geometry, then fail with brushEmpty if some clip emptied the
geometry, else with brushInvalid if healing failed, else with
brushNotFullySpecified if some geometry face has a null payload; otherwise
succeed.  The geometry and the updated face list are returned in every case,
as the member fields of the brush hold them when the exception is thrown. -/
def buildGeometry {G FaceT : Type} (B : BuildKernel G FaceT)
    (worldBounds : BBox) (faces : List FaceT) :
    Option BuildError × G × List FaceT :=
  let r := buildFlags B worldBounds faces
  let err :=
    if r.2.1 = true then some BuildError.brushEmpty
    else if r.2.2 = false then some BuildError.brushInvalid
    else if fullySpecified B r.1 = false then
      some BuildError.brushNotFullySpecified
    else none
  (err, r.1, updateFacesFromGeometry B r.1)

/-- The observable state of a Brush: its face list and its geometry. -/
structure BrushState (G FaceT : Type) where
  faces : List FaceT
  geom : G
  deriving DecidableEq

/-- Brush::expand (Brush.cpp lines 376 to 390): translate every face along
its own boundary normal by delta, then rebuild the geometry; on a build
exception return false.  The face translation happens before the rebuild, so
the state after a failed rebuild holds the translated, partially rebuilt
faces, not the faces the brush had before the call. -/
def expand {G : Type} (B : BuildKernel G BrushFaceT) (worldBounds : BBox)
    (st : BrushState G BrushFaceT) (delta : ℤ) (lockTexture : Bool) :
    Bool × BrushState G BrushFaceT :=
  let movedFaces := st.faces.map fun f => translateFace f (Vec3.smul delta f.normal)
  let built := buildGeometry B worldBounds movedFaces
  match built.1 with
  | some _ => (false, ⟨built.2.2, built.2.1⟩)
  | none => (decide (built.2.2 ≠ []), ⟨built.2.2, built.2.1⟩)

/-- Brush::transform (Brush.cpp lines 971 to 977): transform every face in
place, then rebuild the geometry.  The per-face transform by the 4x4 matrix
with the lockTextures flag is an abstract face map tf (Modelled from the
spec: BrushFace::transform of the payload contract is not among the sources
under src/).  The first component models the GeometryException a failed
rebuild propagates out of transform; the second is the brush state retained
in either case, the face transform having happened before the rebuild. -/
def transform {G : Type} (B : BuildKernel G BrushFaceT)
    (tf : BrushFaceT → BrushFaceT) (worldBounds : BBox)
    (st : BrushState G BrushFaceT) :
    Option BuildError × BrushState G BrushFaceT :=
  let built := buildGeometry B worldBounds (st.faces.map tf)
  (built.1, ⟨built.2.2, built.2.1⟩)

/-- Modelled from the spec: the pieces of the UV lock computation that live
outside src/: `Mat` is the 4x4 matrix type; ptm is
vm::points_transformation_matrix building the affine transform that maps
three reference points to three image points; idMat is the default
vm::mat4x4 (the identity); matNaN models the check !(M == M), true when the
solved matrix contains non-finite values; transformTex models cloning the
left face, transforming the clone by the matrix with texture lock, and
reading the resulting texture attributes, with none standing for a thrown
GeometryException. -/
structure UVKernel (Mat A : Type) where
  ptm : Vec3 → Vec3 → Vec3 → Vec3 → Vec3 → Vec3 → Mat
  idMat : Mat
  matNaN : Mat → Bool
  transformTex : Mat → A → Option A

/-- The left positions of the matched vertex pairs whose left and right
positions coincide, in pair order (the unmovedVerts of
Brush::findTransformForUVLock). -/
def unmovedVerts (pairs : List (Vec3 × Vec3)) : List Vec3 :=
  (pairs.filter fun pr => decide (pr.1 = pr.2)).map Prod.fst

/-- The matched vertex pairs whose positions differ, in pair order (the
movedVerts of Brush::findTransformForUVLock). -/
def movedVerts (pairs : List (Vec3 × Vec3)) : List (Vec3 × Vec3) :=
  pairs.filter fun pr => decide (¬ pr.1 = pr.2)

/-- The reference vertex pairs of Brush::findTransformForUVLock: the unmoved
vertices paired with themselves first, then the moved pairs. -/
def referenceVerts (pairs : List (Vec3 × Vec3)) : List (Vec3 × Vec3) :=
  (unmovedVerts pairs).map (fun v => (v, v)) ++ movedVerts pairs

/-- Brush::findTransformForUVLock (Brush.cpp lines 819 to 866), as a function
of the matched vertex pairs the matcher enumerates for one old/new face
pair: give up when three or more vertices are unmoved; give up when fewer
than three reference pairs exist; solve the three point transform from the
first three reference pairs; give up when it contains non-finite values. -/
def findTransformForUVLock {Mat A : Type} (U : UVKernel Mat A)
    (pairs : List (Vec3 × Vec3)) : Bool × Mat :=
  if 3 ≤ (unmovedVerts pairs).length then (false, U.idMat)
  else
    match referenceVerts pairs with
    | r0 :: r1 :: r2 :: _ =>
      if U.matNaN (U.ptm r0.1 r1.1 r2.1 r0.2 r1.2 r2.2) then (false, U.idMat)
      else (true, U.ptm r0.1 r1.1 r2.1 r0.2 r1.2 r2.2)
    | _ => (false, U.idMat)

/-- Brush::applyUVLock (Brush.cpp lines 868 to 898), as a function of the
matched vertex pairs and the texture attributes of the left face and of the
right face (the right face holds the texturing of the geometric rebuild, a
clone of the left face): when the transform was not found, leave the right
attributes; otherwise transform the left clone and take its attributes,
leaving the right attributes when the transform throws. -/
def applyUVLock {Mat A : Type} (U : UVKernel Mat A)
    (pairs : List (Vec3 × Vec3)) (leftAttrs rightAttrs : A) : A :=
  let fm := findTransformForUVLock U pairs
  if fm.1 then
    match U.transformTex fm.2 leftAttrs with
    | some a => a
    | none => rightAttrs
  else rightAttrs

/-- Modelled from the spec: the UV lock transform the claim derives from
three unmoved reference vertices: the three point transform mapping the
first three unmoved vertex positions to themselves, when three exist. -/
def uvLockTransformFromUnmoved {Mat A : Type} (U : UVKernel Mat A)
    (pairs : List (Vec3 × Vec3)) : Option Mat :=
  match unmovedVerts pairs with
  | a :: b :: c :: _ => some (U.ptm a b c a b c)
  | _ => none

/-- The kernel interface needed by the committing vertex move path: the
geometry kernel, the build kernel over the same geometry type, and the
matcher driven payload transplant of doSetNewGeometry (Modelled from the
spec: PolyhedronMatcher::processRightFaces together with the payload clone
callback and the optional UV lock produce the payload face list of the new
geometry from the old geometry, the new geometry, the vertex position
mapping, the uvLock flag and the old face list). -/
structure FullKernel (G F FaceT : Type) where
  geomK : GeomKernel G F
  buildK : BuildKernel G FaceT
  matchFaces : G → G → List (Vec3 × Vec3) → Bool → List FaceT → List FaceT

/-- Brush::doSetNewGeometry (Brush.cpp lines 900 to 916): transplant the
payloads onto the new geometry through the matcher, replace the face list by
the payload faces of the new geometry, and rebuild; none models the
GeometryException a failed rebuild throws. -/
def doSetNewGeometry {G F FaceT : Type} (FK : FullKernel G F FaceT)
    (worldBounds : BBox) (st : BrushState G FaceT) (newGeometry : G)
    (vertexMapping : List (Vec3 × Vec3)) (uvLock : Bool) :
    Option (BrushState G FaceT) :=
  let transplanted := FK.matchFaces st.geom newGeometry vertexMapping uvLock st.faces
  let built := buildGeometry FK.buildK worldBounds transplanted
  match built.1 with
  | some _ => none
  | none => some ⟨built.2.2, built.2.1⟩

/-- Brush::doMoveVertices (Brush.cpp lines 786 to 817): build the new
geometry from every brush vertex, the moving ones translated by delta; build
the vertex position mapping through the tolerant closest vertex lookup; then
commit through doSetNewGeometry. -/
def doMoveVertices {G F FaceT : Type} (FK : FullKernel G F FaceT)
    (worldBounds : BBox) (st : BrushState G FaceT)
    (vertexPositions : List Vec3) (delta : Vec3) (uvLock : Bool) :
    Option (BrushState G FaceT) :=
  let brushVerts := FK.geomK.vertexPositions st.geom
  let newGeometry := FK.geomK.build
    (brushVerts.map fun p => if p ∈ vertexPositions then p + delta else p)
  let vertexMapping := brushVerts.filterMap fun old =>
    (FK.geomK.findClosestVertex newGeometry
      (if old ∈ vertexPositions then old + delta else old)).map
      fun np => (old, np)
  doSetNewGeometry FK worldBounds st newGeometry vertexMapping uvLock

/-- Brush::moveVertices (Brush.cpp lines 468 to 483): commit the move, then
collect, for each input position in order, the exact position of the vertex
of the new geometry closest within tolerance to the input position plus
delta, skipping positions for which no such vertex exists. -/
def moveVertices {G F FaceT : Type} (FK : FullKernel G F FaceT)
    (worldBounds : BBox) (st : BrushState G FaceT)
    (vertexPositions : List Vec3) (delta : Vec3) (uvLock : Bool) :
    Option (BrushState G FaceT × List Vec3) :=
  (doMoveVertices FK worldBounds st vertexPositions delta uvLock).map fun st2 =>
    (st2, vertexPositions.filterMap fun p =>
      FK.geomK.findClosestVertex st2.geom (p + delta))

/-- Modelled from the spec: the rejection predicate of the generic check case
as claim C1 words it: some moving vertex crosses from the outside (the above
side, the side the outward face normal points to) to the inside (the below
side) of the plane of some remaining fragment face, and the ray of its
segment intersects that face polygon. -/
def specSweepRejected {G F : Type} (K : GeomKernel G F) (moving remaining : G)
    (delta : Vec3) : Bool :=
  (K.vertexPositions moving).any fun oldPos =>
    (K.faces remaining).any fun face =>
      decide (K.pointStatus face oldPos = PlaneStatus.above) &&
      decide (K.pointStatus face (oldPos + delta) = PlaneStatus.below) &&
      K.hitAny face oldPos (oldPos + delta)

/-- The three point transform solved by findTransformForUVLock from the first
three reference pairs, when three exist. -/
def solvedTransform {Mat A : Type} (U : UVKernel Mat A)
    (pairs : List (Vec3 × Vec3)) : Option Mat :=
  match referenceVerts pairs with
  | r0 :: r1 :: r2 :: _ => some (U.ptm r0.1 r1.1 r2.1 r0.2 r1.2 r2.2)
  | _ => none

/-- A large world bounds box used by the concrete evaluation instances. -/
def bigBox : BBox := ⟨⟨-100, -100, -100⟩, ⟨100, 100, 100⟩⟩

/-- A concrete geometry kernel instance over point lists, used to evaluate
the theorems of this file at concrete inputs: a geometry is the list of the
points added to it. -/
def listKernel : GeomKernel (List Vec3) Unit where
  emptyG := []
  addPoint := fun g p => g ++ [p]
  vertexPositions := id
  bounds := fun _ => ⟨⟨0, 0, 0⟩, ⟨0, 0, 0⟩⟩
  hasVertex := fun g v => decide (v ∈ g)
  hasEdge := fun _ _ _ => true
  hasFace := fun _ _ => true
  polyhedron := fun _ => true
  point := fun _ => false
  edge := fun _ => false
  polygon := fun _ => false
  faces := fun _ => []
  pointStatus := fun _ _ => PlaneStatus.inside
  hitBack := fun _ _ _ => false
  hitAny := fun _ _ _ => true
  findClosestVertex := fun g v => if v ∈ g then some v else none
  containsPoint := fun _ _ => false

/-- A concrete geometry kernel instance realizing the scenario in which a
single vertex of a five vertex brush moves from outside the remaining
tetrahedron into its interior: the segment of the moving vertex crosses the
facing plane of the remaining fragment from above to below, the ray hits
that face polygon on its front side (so the back side query misses), and the
move ends strictly inside every remaining plane. -/
def ckKernel : GeomKernel (List Vec3) Unit where
  emptyG := []
  addPoint := fun g p => g ++ [p]
  vertexPositions := id
  bounds := fun _ => ⟨⟨0, 0, 0⟩, ⟨0, 0, 0⟩⟩
  hasVertex := fun g v => decide (v ∈ g)
  hasEdge := fun _ _ _ => true
  hasFace := fun _ _ => true
  polyhedron := fun _ => true
  point := fun _ => false
  edge := fun _ => false
  polygon := fun _ => false
  faces := fun _ => [()]
  pointStatus := fun _ p =>
    if p = ⟨0, 0, 0⟩ then PlaneStatus.above
    else if p = ⟨0, 0, 1⟩ then PlaneStatus.below
    else PlaneStatus.inside
  hitBack := fun _ _ _ => false
  hitAny := fun _ _ _ => true
  findClosestVertex := fun g v => if v ∈ g then some v else none
  containsPoint := fun _ _ => false

/-- The brush vertex list of the concrete check case scenario: the moving
vertex at the origin and a remaining tetrahedron. -/
def cxBrushVerts : List Vec3 :=
  [⟨0, 0, 0⟩, ⟨10, 0, 0⟩, ⟨20, 0, 0⟩, ⟨15, 10, 0⟩, ⟨15, 5, 10⟩]

/-- The brush vertex list of the concrete whole brush translation scenario. -/
def cx3Verts : List Vec3 := [⟨0, 0, 0⟩, ⟨1, 0, 0⟩, ⟨0, 1, 0⟩, ⟨0, 0, 1⟩]

/-- A concrete build kernel whose first clip empties the geometry, realizing
a brush wholly clipped away by its own translated faces. -/
def cbKernel : BuildKernel (List Vec3) BrushFaceT where
  initG := fun _ => []
  sortFaces := id
  clip := fun g _ => (g, true)
  correctVertexPositions := id
  healEdges := fun g => (g, true)
  payloads := fun _ => []

/-- A concrete build kernel on which every build succeeds. -/
def okBuildKernel : BuildKernel (List Vec3) BrushFaceT where
  initG := fun _ => []
  sortFaces := id
  clip := fun g _ => (g, false)
  correctVertexPositions := id
  healEdges := fun g => (g, true)
  payloads := fun _ => []

/-- The brush state of the concrete failed expand scenario: one face, with
the upward unit normal at distance zero. -/
def cx4St : BrushState (List Vec3) BrushFaceT := ⟨[⟨⟨0, 0, 1⟩, 0, 0⟩], []⟩

/-- A concrete full kernel on which the committing vertex move path
succeeds. -/
def okFullKernel : FullKernel (List Vec3) Unit BrushFaceT where
  geomK := listKernel
  buildK := okBuildKernel
  matchFaces := fun _ _ _ _ fs => fs

/-- A concrete UV kernel: matrices and attributes are integers, the solved
transform is the matrix 1, transforming attributes adds the matrix. -/
def cUV : UVKernel ℤ ℤ where
  ptm := fun _ _ _ _ _ _ => 1
  idMat := 0
  matNaN := fun _ => false
  transformTex := fun m a => some (a + m)

/-- A concrete UV kernel satisfying the spec modelled laws of the three
point transform: identical reference triples solve to the identity matrix 0,
and transforming attributes by the identity with texture lock leaves them
unchanged. -/
def cUV8 : UVKernel ℤ ℤ where
  ptm := fun a b c d e f => if a = d ∧ b = e ∧ c = f then 0 else 1
  idMat := 0
  matNaN := fun _ => false
  transformTex := fun m x => if m = 0 then some x else some (x + 1)

/-- The matched vertex pairs of the concrete UV lock scenario with three
unmoved vertices. -/
def cx8Pairs : List (Vec3 × Vec3) :=
  [(⟨0, 0, 0⟩, ⟨0, 0, 0⟩), (⟨1, 0, 0⟩, ⟨1, 0, 0⟩), (⟨0, 1, 0⟩, ⟨0, 1, 0⟩)]

/-- Claim C2: for every world bounds, vertex set V and delta,
canMoveVertices(worldBounds, V, delta) returns false whenever delta is the
zero vector, or V is empty, or the bounding box of the result geometry
(every brush vertex at its old position, the moving ones translated by
delta) is not contained in the world bounds. -/
theorem canMoveVertices_trivial_rejections {G F : Type} (K : GeomKernel G F)
    (brushVerts : List Vec3) (worldBounds : BBox) (V : List Vec3) (delta : Vec3)
    (h : delta = 0 ∨ V = [] ∨
      BBox.containsBox worldBounds
        (K.bounds (resultGeom K brushVerts V delta)) = false) :
    canMoveVertices K brushVerts worldBounds V delta = false := by
  unfold canMoveVertices doCanMoveVertices
  rcases h with h | h | h
  · rw [if_pos (Or.inr h)]
  · rw [if_pos (Or.inl h)]
  · by_cases h1 : V = [] ∨ delta = 0
    · rw [if_pos h1]
    · rw [if_neg h1, if_pos h]

/-- Witness for claim C2 at a concrete input with a zero delta. -/
theorem canMoveVertices_trivial_rejections_witness :
    ((0 : Vec3) = 0 ∨ ([⟨0, 0, 0⟩] : List Vec3) = [] ∨
      BBox.containsBox bigBox
        (listKernel.bounds (resultGeom listKernel [⟨0, 0, 0⟩] [⟨0, 0, 0⟩] 0))
        = false) ∧
    canMoveVertices listKernel [⟨0, 0, 0⟩] bigBox [⟨0, 0, 0⟩] 0 = false :=
  ⟨Or.inl rfl,
   canMoveVertices_trivial_rejections listKernel [⟨0, 0, 0⟩] bigBox
     [⟨0, 0, 0⟩] 0 (Or.inl rfl)⟩

/-- Claim C5: building a geometry from a face list distinguishes exactly
three failure conditions, each reported as a distinct error: the result is
empty (some clip emptied the geometry), the result is not a valid polyhedron
(healing failed), and the result is not fully specified (some geometry face
has a null payload); a build that hits none of the three succeeds. -/
theorem buildGeometry_three_failure_modes {G FaceT : Type}
    (B : BuildKernel G FaceT) (worldBounds : BBox) (faces : List FaceT) :
    ((buildGeometry B worldBounds faces).1 = none ↔
      (buildFlags B worldBounds faces).2.1 = false ∧
      (buildFlags B worldBounds faces).2.2 = true ∧
      fullySpecified B (buildFlags B worldBounds faces).1 = true) ∧
    ((buildGeometry B worldBounds faces).1 = some BuildError.brushEmpty ↔
      (buildFlags B worldBounds faces).2.1 = true) ∧
    ((buildGeometry B worldBounds faces).1 = some BuildError.brushInvalid ↔
      (buildFlags B worldBounds faces).2.1 = false ∧
      (buildFlags B worldBounds faces).2.2 = false) ∧
    ((buildGeometry B worldBounds faces).1
        = some BuildError.brushNotFullySpecified ↔
      (buildFlags B worldBounds faces).2.1 = false ∧
      (buildFlags B worldBounds faces).2.2 = true ∧
      fullySpecified B (buildFlags B worldBounds faces).1 = false) := by
  unfold buildGeometry
  cases hE : (buildFlags B worldBounds faces).2.1 <;>
    cases hV : (buildFlags B worldBounds faces).2.2 <;>
    cases hF : fullySpecified B (buildFlags B worldBounds faces).1 <;>
    simp [hE, hV, hF]

/-- Claim C4 (amended): expand and transform overwrite the face list in
place — expand translating every face along its own normal, transform
applying the face transform to every face — before the candidate geometry is
built and validated; the brush state after either operation is determined by
the transformed faces alone, whether or not the rebuild succeeds, so a
failed expand or transform leaves the transformed, partially rebuilt faces
rather than restoring the prior state. -/
theorem expand_transform_state_determined_by_transformed_faces {G : Type}
    (B : BuildKernel G BrushFaceT) (tf : BrushFaceT → BrushFaceT)
    (worldBounds : BBox) (st : BrushState G BrushFaceT) (delta : ℤ)
    (lockTexture : Bool) :
    (expand B worldBounds st delta lockTexture).2 =
      ⟨(buildGeometry B worldBounds
          (st.faces.map fun f => translateFace f (Vec3.smul delta f.normal))).2.2,
        (buildGeometry B worldBounds
          (st.faces.map fun f =>
            translateFace f (Vec3.smul delta f.normal))).2.1⟩ ∧
    (transform B tf worldBounds st).2 =
      ⟨(buildGeometry B worldBounds (st.faces.map tf)).2.2,
        (buildGeometry B worldBounds (st.faces.map tf)).2.1⟩ := by
  constructor
  · unfold expand
    cases h : (buildGeometry B worldBounds
        (st.faces.map fun f => translateFace f (Vec3.smul delta f.normal))).1 <;>
      simp [h]
  · rfl

/-- Counterexample to claim C4 as stated: a failed expand does not leave the
face list as it was before the edit; here the translated face plane set is
wholly clipped away, expand reports failure, and the face list afterwards
differs from the face list before. -/
theorem expand_failed_mutates_counterexample :
    (expand cbKernel bigBox cx4St 1 false).1 = false ∧
    (expand cbKernel bigBox cx4St 1 false).2.faces ≠ cx4St.faces := by
  decide

/-- Claim C6: for every non-empty list of edge (respectively face) positions
and every delta, canMoveEdges (respectively canMoveFaces) returns true if
and only if the vertex move feasibility over the vertices of the
edges/faces succeeds with vertex removal disallowed and every given
edge/face exists, translated by delta, in the candidate result geometry. -/
theorem canMoveEdges_canMoveFaces_characterization {G F : Type}
    (K : GeomKernel G F) (brushVerts : List Vec3) (worldBounds : BBox)
    (edgePositions : List (Vec3 × Vec3)) (facePositions : List (List Vec3))
    (delta : Vec3) (he : edgePositions ≠ []) (hf : facePositions ≠ []) :
    (canMoveEdges K brushVerts worldBounds edgePositions delta = true ↔
      (doCanMoveVertices K brushVerts worldBounds
        (segmentVertices edgePositions) delta false).success = true ∧
      ∀ e ∈ edgePositions,
        K.hasEdge (doCanMoveVertices K brushVerts worldBounds
            (segmentVertices edgePositions) delta false).geometry
          (e.1 + delta) (e.2 + delta) = true) ∧
    (canMoveFaces K brushVerts worldBounds facePositions delta = true ↔
      (doCanMoveVertices K brushVerts worldBounds
        (polygonVertices facePositions) delta false).success = true ∧
      ∀ f ∈ facePositions,
        K.hasFace (doCanMoveVertices K brushVerts worldBounds
            (polygonVertices facePositions) delta false).geometry
          (f.map fun v => v + delta) = true) := by
  constructor
  · unfold canMoveEdges
    simp [Bool.and_eq_true, List.all_eq_true]
  · unfold canMoveFaces
    simp [Bool.and_eq_true, List.all_eq_true]

/-- Witness for claim C6 at concrete non-empty edge and face lists. -/
theorem canMoveEdges_canMoveFaces_characterization_witness :
    (([(⟨0, 0, 0⟩, ⟨1, 0, 0⟩)] : List (Vec3 × Vec3)) ≠ [] ∧
      ([[⟨0, 0, 0⟩]] : List (List Vec3)) ≠ []) ∧
    ((canMoveEdges listKernel [⟨0, 0, 0⟩] bigBox
        [(⟨0, 0, 0⟩, ⟨1, 0, 0⟩)] ⟨1, 0, 0⟩ = true ↔
      (doCanMoveVertices listKernel [⟨0, 0, 0⟩] bigBox
        (segmentVertices [(⟨0, 0, 0⟩, ⟨1, 0, 0⟩)]) ⟨1, 0, 0⟩ false).success
        = true ∧
      ∀ e ∈ ([(⟨0, 0, 0⟩, ⟨1, 0, 0⟩)] : List (Vec3 × Vec3)),
        listKernel.hasEdge (doCanMoveVertices listKernel [⟨0, 0, 0⟩] bigBox
            (segmentVertices [(⟨0, 0, 0⟩, ⟨1, 0, 0⟩)]) ⟨1, 0, 0⟩ false).geometry
          (e.1 + ⟨1, 0, 0⟩) (e.2 + ⟨1, 0, 0⟩) = true) ∧
    (canMoveFaces listKernel [⟨0, 0, 0⟩] bigBox [[⟨0, 0, 0⟩]] ⟨1, 0, 0⟩
        = true ↔
      (doCanMoveVertices listKernel [⟨0, 0, 0⟩] bigBox
        (polygonVertices [[⟨0, 0, 0⟩]]) ⟨1, 0, 0⟩ false).success = true ∧
      ∀ f ∈ ([[⟨0, 0, 0⟩]] : List (List Vec3)),
        listKernel.hasFace (doCanMoveVertices listKernel [⟨0, 0, 0⟩] bigBox
            (polygonVertices [[⟨0, 0, 0⟩]]) ⟨1, 0, 0⟩ false).geometry
          (f.map fun v => v + ⟨1, 0, 0⟩) = true)) :=
  ⟨⟨by decide, by decide⟩,
   canMoveEdges_canMoveFaces_characterization listKernel [⟨0, 0, 0⟩] bigBox
     [(⟨0, 0, 0⟩, ⟨1, 0, 0⟩)] [[⟨0, 0, 0⟩]] ⟨1, 0, 0⟩ (by decide) (by decide)⟩

/-- Claim C9: canRemoveVertices and canSnapVertices return exactly the
polyhedron() predicate of the candidate geometry constructed from the
omitted (respectively relocated) point set, and canAddVertex admits only
positions whose candidate geometry, the current geometry with the position
added, is a valid full polyhedron, granted the kernel law that incremental
hull insertion preserves the polyhedron predicate and the brush invariant
that the current geometry is a polyhedron. -/
theorem vertex_add_remove_snap_polyhedron_checks {G F : Type}
    (K : GeomKernel G F) (geom : G) (brushVerts vertexPositions : List Vec3)
    (worldBounds : BBox) (position : Vec3) (snapToF : ℤ)
    (hne : vertexPositions ≠ [])
    (haddPoly : ∀ g q, K.polyhedron g = true →
      K.polyhedron (K.addPoint g q) = true)
    (hbrush : K.polyhedron geom = true) :
    canRemoveVertices K brushVerts vertexPositions =
      K.polyhedron
        (K.build (brushVerts.filter fun p => decide (¬ p ∈ vertexPositions))) ∧
    canSnapVertices K brushVerts snapToF =
      K.polyhedron (K.build (brushVerts.map (snapPoint snapToF))) ∧
    (canAddVertex K geom worldBounds position = true →
      K.polyhedron (K.addPoint geom position) = true) :=
  ⟨rfl, rfl, fun _ => haddPoly geom position hbrush⟩

/-- Witness for claim C9 at a concrete kernel and input. -/
theorem vertex_add_remove_snap_polyhedron_checks_witness :
    (([⟨0, 0, 0⟩] : List Vec3) ≠ [] ∧
      (∀ g q, listKernel.polyhedron g = true →
        listKernel.polyhedron (listKernel.addPoint g q) = true) ∧
      listKernel.polyhedron [] = true) ∧
    (canRemoveVertices listKernel [⟨0, 0, 0⟩] [⟨0, 0, 0⟩] =
      listKernel.polyhedron
        (listKernel.build
          ([⟨0, 0, 0⟩].filter fun p => decide (¬ p ∈ ([⟨0, 0, 0⟩] : List Vec3)))) ∧
    canSnapVertices listKernel [⟨0, 0, 0⟩] 1 =
      listKernel.polyhedron
        (listKernel.build ([⟨0, 0, 0⟩].map (snapPoint 1))) ∧
    (canAddVertex listKernel [] bigBox ⟨1, 1, 1⟩ = true →
      listKernel.polyhedron (listKernel.addPoint [] ⟨1, 1, 1⟩) = true)) :=
  ⟨⟨by decide, fun _ _ _ => rfl, rfl⟩,
   vertex_add_remove_snap_polyhedron_checks listKernel [] [⟨0, 0, 0⟩]
     [⟨0, 0, 0⟩] bigBox ⟨1, 1, 1⟩ 1 (by decide) (fun _ _ _ => rfl) rfl⟩

/-- Claim C10: a successful moveVertices returns, for each input position in
input order, the exact position of the vertex of the new geometry closest
within tolerance to that position plus delta, omitting an entry whenever no
such vertex exists, so the returned list may be shorter than the input
list. -/
theorem moveVertices_result_positions {G F FaceT : Type}
    (FK : FullKernel G F FaceT) (worldBounds : BBox) (st : BrushState G FaceT)
    (vertexPositions : List Vec3) (delta : Vec3) (uvLock : Bool)
    (st2 : BrushState G FaceT) (out : List Vec3)
    (h : moveVertices FK worldBounds st vertexPositions delta uvLock
      = some (st2, out)) :
    out = vertexPositions.filterMap
      (fun p => FK.geomK.findClosestVertex st2.geom (p + delta)) ∧
    out.length ≤ vertexPositions.length := by
  unfold moveVertices at h
  cases hd : doMoveVertices FK worldBounds st vertexPositions delta uvLock with
  | none =>
    rw [hd] at h
    exact absurd h (by simp)
  | some st0 =>
    rw [hd] at h
    have h2 : st0 = st2 ∧ (vertexPositions.filterMap fun p =>
        FK.geomK.findClosestVertex st0.geom (p + delta)) = out := by
      simpa using h
    rcases h2 with ⟨h3, h4⟩
    subst h3
    refine ⟨h4.symm, ?_⟩
    rw [← h4]
    exact List.length_filterMap_le _ _

/-- Helper: findTransformForUVLock gives up when three or more matched
vertices are unmoved. -/
theorem findTransform_skip_of_three_unmoved {Mat A : Type} (U : UVKernel Mat A)
    (pairs : List (Vec3 × Vec3)) (h3 : 3 ≤ (unmovedVerts pairs).length) :
    findTransformForUVLock U pairs = (false, U.idMat) := by
  unfold findTransformForUVLock
  rw [if_pos h3]

/-- Helper: when the transform was not found, applyUVLock leaves the right
face attributes untouched. -/
theorem applyUVLock_skip {Mat A : Type} (U : UVKernel Mat A)
    (pairs : List (Vec3 × Vec3)) (leftAttrs rightAttrs : A)
    (hfind : findTransformForUVLock U pairs = (false, U.idMat)) :
    applyUVLock U pairs leftAttrs rightAttrs = rightAttrs := by
  simp [applyUVLock, hfind]

/-- Helper: a transform derived from three unmoved reference vertices forces
at least three unmoved matched vertices, and is the three point transform of
the first three of them. -/
theorem three_unmoved_of_transform {Mat A : Type} (U : UVKernel Mat A)
    (pairs : List (Vec3 × Vec3)) (M : Mat)
    (hder : uvLockTransformFromUnmoved U pairs = some M) :
    3 ≤ (unmovedVerts pairs).length ∧
    ∃ a b c rest, unmovedVerts pairs = a :: b :: c :: rest ∧
      M = U.ptm a b c a b c := by
  unfold uvLockTransformFromUnmoved at hder
  cases hu : unmovedVerts pairs with
  | nil =>
    rw [hu] at hder
    simp at hder
  | cons a t0 =>
    cases t0 with
    | nil =>
      rw [hu] at hder
      simp at hder
    | cons b t1 =>
      cases t1 with
      | nil =>
        rw [hu] at hder
        simp at hder
      | cons c rest =>
        rw [hu] at hder
        simp only [Option.some.injEq] at hder
        refine ⟨?_, a, b, c, rest, rfl, hder.symm⟩
        simp only [List.length_cons]
        omega

/-- Claim C7: when fewer than three reference vertex pairs exist, or the
solved three point transform is numerically degenerate, the UV lock is
silently skipped for the face: findTransformForUVLock reports failure, and
applyUVLock leaves the face with the texturing produced by the geometric
rebuild; being a total function, it surfaces no failure to the enclosing
operation. -/
theorem uvLock_skip_conditions {Mat A : Type} (U : UVKernel Mat A)
    (pairs : List (Vec3 × Vec3)) (leftAttrs rightAttrs : A)
    (h : (referenceVerts pairs).length < 3 ∨
      (∃ M, solvedTransform U pairs = some M ∧ U.matNaN M = true)) :
    findTransformForUVLock U pairs = (false, U.idMat) ∧
    applyUVLock U pairs leftAttrs rightAttrs = rightAttrs := by
  have hfind : findTransformForUVLock U pairs = (false, U.idMat) := by
    by_cases h3 : 3 ≤ (unmovedVerts pairs).length
    · exact findTransform_skip_of_three_unmoved U pairs h3
    · unfold findTransformForUVLock
      rw [if_neg h3]
      cases hrv : referenceVerts pairs with
      | nil => rfl
      | cons r0 t0 =>
        cases t0 with
        | nil => rfl
        | cons r1 t1 =>
          cases t1 with
          | nil => rfl
          | cons r2 rest =>
            rcases h with hlen | ⟨M, hsol, hnan⟩
            · rw [hrv] at hlen
              simp only [List.length_cons] at hlen
              omega
            · unfold solvedTransform at hsol
              rw [hrv] at hsol
              simp only [Option.some.injEq] at hsol
              show (if U.matNaN (U.ptm r0.1 r1.1 r2.1 r0.2 r1.2 r2.2) = true
                  then ((false, U.idMat) : Bool × Mat)
                  else (true, U.ptm r0.1 r1.1 r2.1 r0.2 r1.2 r2.2))
                = (false, U.idMat)
              rw [hsol, if_pos hnan]
  exact ⟨hfind, applyUVLock_skip U pairs leftAttrs rightAttrs hfind⟩

/-- Witness for claim C7 at a concrete kernel with one moved vertex pair,
hence a single reference pair. -/
theorem uvLock_skip_conditions_witness :
    ((referenceVerts [(⟨0, 0, 0⟩, ⟨1, 0, 0⟩)]).length < 3 ∨
      (∃ M, solvedTransform cUV [(⟨0, 0, 0⟩, ⟨1, 0, 0⟩)] = some M ∧
        cUV.matNaN M = true)) ∧
    (findTransformForUVLock cUV [(⟨0, 0, 0⟩, ⟨1, 0, 0⟩)] = (false, cUV.idMat) ∧
      applyUVLock cUV [(⟨0, 0, 0⟩, ⟨1, 0, 0⟩)] 5 7 = 7) :=
  ⟨Or.inl (by decide),
   uvLock_skip_conditions cUV [(⟨0, 0, 0⟩, ⟨1, 0, 0⟩)] 5 7 (Or.inl (by decide))⟩

/-- Claim C8: for a face whose UV lock transform is derivable from three
unmoved reference vertices, the texture attributes the UV locked operation
leaves on the face equal those obtained by directly transforming the
original face by that matrix with texture lock, granted the spec modelled
laws that the three point transform of identical triples is the identity
and that transforming with texture lock by the identity preserves the
attributes: the lock is skipped (the code gives up when three or more
vertices are unmoved), the face keeps the attributes of the rebuilt clone,
and the derived matrix, being the identity, maps them to themselves. -/
theorem uvLock_three_unmoved_reference_vertices {Mat A : Type}
    (U : UVKernel Mat A) (pairs : List (Vec3 × Vec3)) (attrs : A) (M : Mat)
    (hptm : ∀ a b c, U.ptm a b c a b c = U.idMat)
    (hid : ∀ x, U.transformTex U.idMat x = some x)
    (hder : uvLockTransformFromUnmoved U pairs = some M) :
    some (applyUVLock U pairs attrs attrs) = U.transformTex M attrs := by
  obtain ⟨h3, a, b, c, rest, hu, hM⟩ := three_unmoved_of_transform U pairs M hder
  have hfind := findTransform_skip_of_three_unmoved U pairs h3
  rw [applyUVLock_skip U pairs attrs attrs hfind, hM, hptm a b c, hid attrs]

/-- Witness for claim C8 at a concrete kernel with three unmoved vertex
pairs. -/
theorem uvLock_three_unmoved_reference_vertices_witness :
    ((∀ a b c, cUV8.ptm a b c a b c = cUV8.idMat) ∧
      (∀ x, cUV8.transformTex cUV8.idMat x = some x) ∧
      uvLockTransformFromUnmoved cUV8 cx8Pairs = some 0) ∧
    some (applyUVLock cUV8 cx8Pairs 5 5) = cUV8.transformTex 0 5 :=
  ⟨⟨fun a b c => by simp [cUV8], fun x => by simp [cUV8], by decide⟩,
   uvLock_three_unmoved_reference_vertices cUV8 cx8Pairs 5 0
     (fun a b c => by simp [cUV8]) (fun x => by simp [cUV8]) (by decide)⟩

/-- Witness for claim C10 at a concrete kernel on which the move commits. -/
theorem moveVertices_result_positions_witness :
    (moveVertices okFullKernel bigBox ⟨[], []⟩ [⟨1, 1, 1⟩] ⟨1, 0, 0⟩ false
      = some (⟨[], []⟩, [])) ∧
    (([] : List Vec3) = [⟨1, 1, 1⟩].filterMap
      (fun p => okFullKernel.geomK.findClosestVertex
        (BrushState.geom (⟨[], []⟩ : BrushState (List Vec3) BrushFaceT))
        (p + ⟨1, 0, 0⟩)) ∧
    ([] : List Vec3).length ≤ ([⟨1, 1, 1⟩] : List Vec3).length) :=
  ⟨by decide,
   moveVertices_result_positions okFullKernel bigBox ⟨[], []⟩ [⟨1, 1, 1⟩]
     ⟨1, 0, 0⟩ false ⟨[], []⟩ [] (by decide)⟩

/-- Helper: when the moving set covers every brush vertex, the moving
partition is the whole brush vertex list. -/
theorem movingPositions_of_cover (brushVerts positions : List Vec3)
    (hs : ∀ v ∈ brushVerts, v ∈ positions) :
    movingPositions brushVerts positions = brushVerts := by
  unfold movingPositions
  rw [List.filter_eq_self]
  intro a ha
  simpa using hs a ha

/-- Helper: when the moving set covers every brush vertex, the result point
sequence is the translated brush vertex list. -/
theorem resultPositions_of_cover (brushVerts positions : List Vec3)
    (delta : Vec3) (hs : ∀ v ∈ brushVerts, v ∈ positions) :
    resultPositions brushVerts positions delta
      = brushVerts.map (fun p => p + delta) := by
  unfold resultPositions
  apply List.map_congr_left
  intro a ha
  rw [if_pos (hs a ha)]

/-- Counterexample to claim C3 as stated: a whole brush move with the zero
delta is rejected even though it covers every vertex and the translated
result stays inside the world bounds, because doCanMoveVertices rejects the
zero delta first. -/
theorem whole_brush_zero_delta_counterexample :
    (∀ v ∈ cx3Verts, v ∈ cx3Verts) ∧
    BBox.containsBox bigBox
      (listKernel.bounds (resultGeom listKernel cx3Verts cx3Verts 0)) = true ∧
    canMoveVertices listKernel cx3Verts bigBox cx3Verts 0 = false := by
  decide

/-- Claim C3 (amended): a vertex move whose moving set covers every vertex of
the brush (a whole brush translation) with a nonzero delta is accepted by
canMoveVertices whenever the translated result stays within the world
bounds, regardless of the brush shape, granted the kernel law that
rebuilding the geometry from its own vertex list reproduces its vertex
count. -/
theorem canMoveVertices_whole_brush_translation {G F : Type}
    (K : GeomKernel G F) (brushVerts : List Vec3) (worldBounds : BBox)
    (positions : List Vec3) (delta : Vec3)
    (hcover : ∀ v ∈ brushVerts, v ∈ positions)
    (hne : brushVerts ≠ [])
    (hdelta : delta ≠ 0)
    (hcnt : (K.vertexPositions (K.build brushVerts)).length
      = brushVerts.length)
    (hbounds : BBox.containsBox worldBounds
      (K.bounds (K.build (brushVerts.map fun p => p + delta))) = true) :
    canMoveVertices K brushVerts worldBounds positions delta = true := by
  have hpos : positions ≠ [] := by
    cases brushVerts with
    | nil => exact absurd rfl hne
    | cons a t =>
      have ha := hcover a (List.mem_cons_self a t)
      intro hp
      rw [hp] at ha
      exact absurd ha (List.not_mem_nil a)
  have hres : resultGeom K brushVerts positions delta
      = K.build (brushVerts.map fun p => p + delta) := by
    unfold resultGeom
    rw [resultPositions_of_cover brushVerts positions delta hcover]
  have hmov : movingGeom K brushVerts positions = K.build brushVerts := by
    unfold movingGeom
    rw [movingPositions_of_cover brushVerts positions hcover]
  unfold canMoveVertices doCanMoveVertices
  rw [if_neg (not_or.mpr ⟨hpos, hdelta⟩)]
  rw [hres, hmov]
  rw [if_neg (by simp [hbounds])]
  rw [if_pos hcnt]

/-- Witness for claim C3 (amended) at a concrete kernel and brush. -/
theorem canMoveVertices_whole_brush_translation_witness :
    ((∀ v ∈ cx3Verts, v ∈ cx3Verts) ∧ cx3Verts ≠ [] ∧
      (⟨1, 0, 0⟩ : Vec3) ≠ 0 ∧
      (listKernel.vertexPositions (listKernel.build cx3Verts)).length
        = cx3Verts.length ∧
      BBox.containsBox bigBox
        (listKernel.bounds
          (listKernel.build (cx3Verts.map fun p => p + ⟨1, 0, 0⟩))) = true) ∧
    canMoveVertices listKernel cx3Verts bigBox cx3Verts ⟨1, 0, 0⟩ = true :=
  ⟨⟨by decide, by decide, by decide, by decide, by decide⟩,
   canMoveVertices_whole_brush_translation listKernel cx3Verts bigBox
     cx3Verts ⟨1, 0, 0⟩ (by decide) (by decide) (by decide) (by decide)
     (by decide)⟩

/-- Helper: the sweep rejection of doCanMoveVertices holds exactly when some
moving vertex lies below some remaining face plane at its old position,
above it at its new position, and the ray toward the new position hits the
face polygon on its back side. -/
theorem sweepRejected_iff {G F : Type} (K : GeomKernel G F) (m r : G)
    (d : Vec3) :
    sweepRejected K m r d = true ↔
      ∃ v ∈ K.vertexPositions m, ∃ f ∈ K.faces r,
        K.pointStatus f v = PlaneStatus.below ∧
        K.pointStatus f (v + d) = PlaneStatus.above ∧
        K.hitBack f v (v + d) = true := by
  unfold sweepRejected
  simp [List.any_eq_true, Bool.and_eq_true, decide_eq_true_eq, and_assoc]

/-- Counterexample to claim C1 as stated: a move that reaches the generic
check case of the decision table, in which the segment of the moving vertex
crosses from the outside (above) to the inside (below) of the plane of a
remaining fragment face and its ray intersects that face polygon (on its
front side), yet the code accepts the move: the sweep of doCanMoveVertices
only rejects crossings from below to above whose backward ray query hits.
The scenario moves a vertex from outside the remaining fragment into its
interior, which the code deliberately allows when vertex removal is
permitted. -/
theorem check_case_outside_to_inside_counterexample :
    (([⟨0, 0, 0⟩] : List Vec3) ≠ [] ∧ (⟨0, 0, 1⟩ : Vec3) ≠ 0 ∧
      BBox.containsBox bigBox
        (ckKernel.bounds
          (resultGeom ckKernel cxBrushVerts [⟨0, 0, 0⟩] ⟨0, 0, 1⟩)) = true ∧
      (ckKernel.vertexPositions
          (movingGeom ckKernel cxBrushVerts [⟨0, 0, 0⟩])).length
        ≠ cxBrushVerts.length ∧
      ckKernel.polyhedron
        (resultGeom ckKernel cxBrushVerts [⟨0, 0, 0⟩] ⟨0, 0, 1⟩) = true ∧
      ((ckKernel.point (movingGeom ckKernel cxBrushVerts [⟨0, 0, 0⟩]) &&
          ckKernel.polygon (remainingGeom ckKernel cxBrushVerts [⟨0, 0, 0⟩])) ||
        (ckKernel.edge (movingGeom ckKernel cxBrushVerts [⟨0, 0, 0⟩]) &&
          ckKernel.edge (remainingGeom ckKernel cxBrushVerts [⟨0, 0, 0⟩])))
        = false) ∧
    specSweepRejected ckKernel (checkMoving ckKernel cxBrushVerts [⟨0, 0, 0⟩])
      (checkRemaining ckKernel cxBrushVerts [⟨0, 0, 0⟩])
      (checkDelta ckKernel cxBrushVerts [⟨0, 0, 0⟩] ⟨0, 0, 1⟩) = true ∧
    (doCanMoveVertices ckKernel cxBrushVerts bigBox [⟨0, 0, 0⟩] ⟨0, 0, 1⟩
      true).success = true := by
  decide

/-- Claim C1 (amended): for every vertex move that reaches the generic check
case of the decision table (after the ok cases and the invert step), the
move is rejected if and only if some moving vertex of the post-invert moving
fragment crosses from the inside (below) to the outside (above) of the plane
of some post-invert remaining fragment face and the ray from the old toward
the new position intersects that face polygon on its back side; otherwise
the move is accepted. -/
theorem doCanMoveVertices_check_case_characterization {G F : Type}
    (K : GeomKernel G F) (brushVerts : List Vec3) (worldBounds : BBox)
    (positions : List Vec3) (delta : Vec3) (allow : Bool)
    (h1 : positions ≠ []) (h2 : delta ≠ 0)
    (hb : BBox.containsBox worldBounds
      (K.bounds (resultGeom K brushVerts positions delta)) = true)
    (hcnt : (K.vertexPositions (movingGeom K brushVerts positions)).length
      ≠ brushVerts.length)
    (hrem : allow = true ∨
      ((K.vertexPositions (movingGeom K brushVerts positions)).all fun mv =>
        K.hasVertex (resultGeom K brushVerts positions delta) (mv + delta))
        = true)
    (hpoly : K.polyhedron (resultGeom K brushVerts positions delta) = true)
    (hok : ((K.point (movingGeom K brushVerts positions) &&
        K.polygon (remainingGeom K brushVerts positions)) ||
      (K.edge (movingGeom K brushVerts positions) &&
        K.edge (remainingGeom K brushVerts positions))) = false) :
    ((doCanMoveVertices K brushVerts worldBounds positions delta allow).success
        = false ↔
      ∃ v ∈ K.vertexPositions (checkMoving K brushVerts positions),
        ∃ f ∈ K.faces (checkRemaining K brushVerts positions),
          K.pointStatus f v = PlaneStatus.below ∧
          K.pointStatus f (v + checkDelta K brushVerts positions delta)
            = PlaneStatus.above ∧
          K.hitBack f v (v + checkDelta K brushVerts positions delta)
            = true) := by
  unfold doCanMoveVertices
  rw [if_neg (not_or.mpr ⟨h1, h2⟩)]
  rw [if_neg (by simp [hb])]
  rw [if_neg hcnt]
  rw [if_neg (by
    intro hc
    rcases hrem with ha | hall
    · rw [ha] at hc
      simp at hc
    · rw [hall] at hc
      simp at hc)]
  rw [if_neg (by simp [hpoly])]
  rw [if_neg (by simp [hok])]
  rw [← sweepRejected_iff K (checkMoving K brushVerts positions)
    (checkRemaining K brushVerts positions)
    (checkDelta K brushVerts positions delta)]
  cases hs : sweepRejected K (checkMoving K brushVerts positions)
      (checkRemaining K brushVerts positions)
      (checkDelta K brushVerts positions delta) <;> simp [hs]

/-- Witness for claim C1 (amended) at the concrete check case scenario. -/
theorem doCanMoveVertices_check_case_characterization_witness :
    (([⟨0, 0, 0⟩] : List Vec3) ≠ [] ∧ (⟨0, 0, 1⟩ : Vec3) ≠ 0 ∧
      BBox.containsBox bigBox
        (ckKernel.bounds
          (resultGeom ckKernel cxBrushVerts [⟨0, 0, 0⟩] ⟨0, 0, 1⟩)) = true ∧
      (ckKernel.vertexPositions
          (movingGeom ckKernel cxBrushVerts [⟨0, 0, 0⟩])).length
        ≠ cxBrushVerts.length ∧
      ckKernel.polyhedron
        (resultGeom ckKernel cxBrushVerts [⟨0, 0, 0⟩] ⟨0, 0, 1⟩) = true ∧
      ((ckKernel.point (movingGeom ckKernel cxBrushVerts [⟨0, 0, 0⟩]) &&
          ckKernel.polygon (remainingGeom ckKernel cxBrushVerts [⟨0, 0, 0⟩])) ||
        (ckKernel.edge (movingGeom ckKernel cxBrushVerts [⟨0, 0, 0⟩]) &&
          ckKernel.edge (remainingGeom ckKernel cxBrushVerts [⟨0, 0, 0⟩])))
        = false) ∧
    ((doCanMoveVertices ckKernel cxBrushVerts bigBox [⟨0, 0, 0⟩] ⟨0, 0, 1⟩
        true).success = false ↔
      ∃ v ∈ ckKernel.vertexPositions
          (checkMoving ckKernel cxBrushVerts [⟨0, 0, 0⟩]),
        ∃ f ∈ ckKernel.faces (checkRemaining ckKernel cxBrushVerts [⟨0, 0, 0⟩]),
          ckKernel.pointStatus f v = PlaneStatus.below ∧
          ckKernel.pointStatus f
              (v + checkDelta ckKernel cxBrushVerts [⟨0, 0, 0⟩] ⟨0, 0, 1⟩)
            = PlaneStatus.above ∧
          ckKernel.hitBack f v
              (v + checkDelta ckKernel cxBrushVerts [⟨0, 0, 0⟩] ⟨0, 0, 1⟩)
            = true) :=
  ⟨⟨by decide, by decide, by decide, by decide, by decide, by decide⟩,
   doCanMoveVertices_check_case_characterization ckKernel cxBrushVerts bigBox
     [⟨0, 0, 0⟩] ⟨0, 0, 1⟩ true (by decide) (by decide) (by decide)
     (by decide) (Or.inl rfl) (by decide) (by decide)⟩

end TB
